import Mathlib

/-!
Verification development for the timeline engine (`TimeGraph`) of the Orbit
profiler repository.

The engine in `src/OrbitGl/TimeGraph.cpp` is shallowly embedded below:

* C++ `uint64_t` tick counters become `Nat` (the sentinel
  `std::numeric_limits<uint64_t>::max()` becomes the explicit constant
  `UINT64_MAX = 2 ^ 64 - 1`; the code never wraps a tick counter in the
  embedded operations, every tick update is a `max` / comparison);
* C++ `double` microsecond quantities become `ℚ` (idealized exact
  arithmetic; the literals `0.1`, `0.001`, ... are the exact rationals
  `1/10`, `1/1000`, ...);
* `int32_t` thread ids become `Int`;
* the ordered `std::map` registries become association lists kept sorted
  by key, so that iteration order in the model matches iteration order of
  the C++ ordered maps;
* shared-pointer track objects reachable both from a registry map and from
  the `tracks_` vector become a registry map holding the track data plus a
  list of stable handles (`TrackRef`), the arena representation suggested
  in the design notes of the specification;
* mutating member functions become state-passing functions
  `Env → TimeGraph → ... → TimeGraph`, where `Env` packages the external
  collaborators (`GOrbitApp` capture data, string manager, stopwatch
  reading) that the engine reads but does not own.

Helper code that lives outside `src/` (the `Track` class family,
`TicksToMicroseconds`, `CallstackData`, `OrbitUtils::ReverseValueSort`,
`clamp`, `SamplingProfiler::kAllThreadsFakeTid`) is modelled from the
specification; each such definition carries a doc comment saying so.
-/

/-! ## External helpers modelled from the spec -/

/-- Modelled from the spec: `SamplingProfiler::kAllThreadsFakeTid`, the
synthetic "all threads" thread id used for the process track and the
all-threads selection bucket (spec sections 3 and 4.5).  Its concrete value is
irrelevant to the engine; the model only needs it to be a fixed id distinct
from real thread ids, which are nonnegative. -/
def kAllThreadsFakeTid : Int := -1

/-- The `uint64_t` sentinel `std::numeric_limits<uint64_t>::max()` used by
`TimeGraph::Clear` and `TimeGraph::UpdateCaptureMinMaxTimestamps`. -/
def UINT64_MAX : Nat := 2 ^ 64 - 1

/-- Modelled from the spec: `TicksToMicroseconds(start, end)` from
`OrbitBase/Profiling.h` (outside `src/`), the pure conversion
`tick_to_us(capture_min_tick, tick)`: 1 tick = 1 nanosecond, so the
microsecond distance from `s` to `e` is `(e - s) / 1000` (spec section 4.1). -/
def TicksToMicroseconds (s e : Nat) : ℚ := ((e : ℤ) - (s : ℤ)) / 1000

/-- Model of `static_cast<uint64_t>(d)` applied to a nonnegative `double`:
truncation toward zero, i.e. the floor for nonnegative input.  (For a negative
input the C++ cast is undefined behaviour; the model returns `0`.) -/
def doubleToUint64 (q : ℚ) : Nat := (⌊q⌋).toNat

/-- Modelled from the spec: `clamp(v, lo, hi)` from the `OrbitGl` utility
header (outside `src/`), used by `TimeGraph::PanTime` to keep the window
inside `[0, capture_span]` (spec section 4.4). -/
def clampQ (v lo hi : ℚ) : ℚ := min (max v lo) hi

/-- Modelled from the spec: `absl::StrContains(s, sub)` substring test used by
the thread-name filter (spec section 4.4: space-separated substrings, OR
semantics).  An empty needle is contained in every string. -/
def strContains (s sub : String) : Bool :=
  sub.isEmpty || (s.splitOn sub).length > 1

/-! ## Sorted association lists (the `std::map` registries) -/

/-- Lookup in an association list (`std::map::operator[]` read side /
`find`). -/
def mapLookup {K V : Type} [DecidableEq K] : List (K × V) → K → Option V
  | [], _ => none
  | (k', v') :: rest, k => if k = k' then some v' else mapLookup rest k

/-- Insert or overwrite a binding, keeping the list sorted by key: this models
mutation through `std::map::operator[]`, whose iteration order is key order. -/
def mapInsert {K V : Type} [LinearOrder K] (k : K) (v : V) :
    List (K × V) → List (K × V)
  | [] => [(k, v)]
  | (k', v') :: rest =>
    if k < k' then (k, v) :: (k', v') :: rest
    else if k = k' then (k, v) :: rest
    else (k', v') :: mapInsert k v rest

/-- Adjust the binding at `k` with `f`, inserting `f none` when absent.  Used
for `++map[k]` and for appending to a per-key bucket. -/
def mapAdjust {K V : Type} [LinearOrder K] (k : K) (f : Option V → V) :
    List (K × V) → List (K × V)
  | [] => [(k, f none)]
  | (k', v') :: rest =>
    if k < k' then (k, f none) :: (k', v') :: rest
    else if k = k' then (k, f (some v')) :: rest
    else (k', v') :: mapAdjust k f rest

/-- `++thread_count_map_[tid]` on the model map (value-initialized to `0`). -/
def mapIncr {K : Type} [LinearOrder K] (m : List (K × Nat)) (k : K) :
    List (K × Nat) :=
  mapAdjust k (fun v => (v.getD 0) + 1) m

/-- Insert into a sorted duplicate-free list of ids; models
`absl::flat_hash_set::insert` (the model determinizes the unordered set by
keeping it sorted). -/
def setInsert {K : Type} [LinearOrder K] (k : K) : List K → List K
  | [] => [k]
  | k' :: rest =>
    if k < k' then k :: k' :: rest
    else if k = k' then k' :: rest
    else k' :: setInsert k rest

/-! ## Timer records and the external event index -/

/-- The record kinds of `orbit_client_protos::TimerInfo::Type` that
`TimeGraph.cpp` dispatches on.  `kNone` is the kind of an ordinary
instrumented function span. -/
inductive TimerType where
  | kNone
  | kCoreActivity
  | kIntrospection
  | kGpuActivity
  deriving DecidableEq, Repr

/-- The decoded manual-instrumentation event types of `orbit_api::Event`
(decoded outside `src/` by `ApiEventFromTimerInfo`). -/
inductive ApiEventType where
  | kNoneApi
  | kString
  | kTrackInt
  | kTrackInt64
  | kTrackUint
  | kTrackUint64
  | kTrackFloat
  | kTrackDouble
  deriving DecidableEq, Repr

/-- Modelled from the spec: the decoded `orbit_api::Event` payload carried by
a manual-instrumentation timer.  `ApiEventFromTimerInfo` (outside `src/`)
decodes it from the raw registers of the timer record; the model attaches the
already-decoded event to the record.  `value` keeps the raw 64-bit payload;
the bit-level `Decode<T>` reinterpretation is external. -/
structure ApiEvent where
  type : ApiEventType := ApiEventType.kNoneApi
  name : String := ""
  value : Nat := 0
  deriving DecidableEq, Repr

/-- One timer record, mirroring the fields of
`orbit_client_protos::TimerInfo` that `TimeGraph.cpp` reads:
`start()`, `end()`, `thread_id()`, `depth()`, `type()`, `processor()`,
`timeline_hash()`, `function_address()`. -/
structure TimerInfo where
  start : Nat := 0
  end_ : Nat := 0
  thread_id : Int := 0
  depth : Nat := 0
  type : TimerType := TimerType.kNone
  processor : Int := 0
  timeline_hash : Nat := 0
  function_address : Nat := 0
  api_event : ApiEvent := {}
  deriving DecidableEq, Repr

/-- The `orbit_type()` values of `orbit_client_protos::FunctionInfo` that
`TimeGraph::ProcessOrbitFunctionTimer` dispatches on. -/
inductive FunctionOrbitType where
  | kNone
  | kOrbitTrackValue
  | kOrbitTimerStartAsync
  | kOrbitTimerStopAsync
  deriving DecidableEq, Repr

/-- The part of `orbit_client_protos::FunctionInfo` the engine reads. -/
structure FunctionInfo where
  orbit_type : FunctionOrbitType := FunctionOrbitType.kNone
  pretty_name : String := ""
  deriving DecidableEq, Repr

/-- One sampled callstack event served by the external event index. -/
structure CallstackEvent where
  time : Nat := 0
  thread_id : Int := 0
  callstack_hash : Nat := 0
  deriving DecidableEq, Repr

/-- Modelled from the spec: the external callstack/event index
(`CallstackData`, outside `src/`), exposing `count`, `min_time`, `max_time`,
per-thread counts and time-range queries (spec section 6). -/
structure CallstackData where
  events : List CallstackEvent := []
  deriving DecidableEq, Repr

/-- Modelled from the spec: `GetCallstackEventsCount()`. -/
def CallstackData.count (cd : CallstackData) : Nat := cd.events.length

/-- Modelled from the spec: `min_time()` of the event index. -/
def CallstackData.min_time (cd : CallstackData) : Nat :=
  ((cd.events.map (fun e => e.time)).min?).getD UINT64_MAX

/-- Modelled from the spec: `max_time()` of the event index. -/
def CallstackData.max_time (cd : CallstackData) : Nat :=
  ((cd.events.map (fun e => e.time)).max?).getD 0

/-- Modelled from the spec: `GetCallstackEventsCountsPerTid()`, determinized
as a key-sorted association list. -/
def CallstackData.countsPerTid (cd : CallstackData) : List (Int × Nat) :=
  cd.events.foldl (fun m e => mapIncr m e.thread_id) []

/-- Modelled from the spec: `events_in_time_range(lo, hi)` of the event index
(spec section 6); the model takes the range as inclusive on both ends. -/
def CallstackData.eventsInRange (cd : CallstackData) (lo hi : Nat) :
    List CallstackEvent :=
  cd.events.filter (fun e => lo ≤ e.time && e.time ≤ hi)

/-- Modelled from the spec: `events_of_thread_in_time_range(tid, lo, hi)`. -/
def CallstackData.eventsOfTidInRange (cd : CallstackData) (tid : Int)
    (lo hi : Nat) : List CallstackEvent :=
  cd.events.filter (fun e => e.thread_id = tid && lo ≤ e.time && e.time ≤ hi)

/-- The external collaborators read by the engine: the `GOrbitApp` capture
data (callstack event index), the capturing flag, the wall-clock reading of
the reorder stopwatch, and the string manager / GPU label mapping used when a
GPU track is created. -/
structure Env where
  callstack : CallstackData := {}
  is_capturing : Bool := false
  elapsed_reorder_ms : ℚ := 0
  string_manager : Nat → Option String := fun _ => none
  gpu_track_label : String → String := id

/-! ## Tracks

The `Track` class family lives outside `src/`; `TimeGraph.cpp` only calls
`OnTimer`, `IsEmpty`, `GetNumTimers`, `GetMinTime`, `SetColor` / labels on it.
These are modelled from the spec (sections 3 and 4.3): a track owns an
append-only sequence of timer records (the per-depth / per-core chain split is
immaterial to counting, emptiness and extent, the only track queries the
engine makes here); `on_timer` appends; `is_empty` holds when nothing was
ingested; `min_time` is the least start tick seen. -/

/-- An RGBA color; `TimeGraph::GetColor` picks from a fixed palette. -/
structure Color where
  r : Nat
  g : Nat
  b : Nat
  a : Nat
  deriving DecidableEq, Repr

/-- The fixed palette of `TimeGraph::GetColor(uint32_t)`. -/
def timeGraphPalette : List Color :=
  [⟨231, 68, 53, 255⟩, ⟨43, 145, 175, 255⟩, ⟨185, 117, 181, 255⟩,
   ⟨87, 166, 74, 255⟩, ⟨215, 171, 105, 255⟩, ⟨248, 101, 22, 255⟩]

/-- `TimeGraph::GetColor(uint32_t id)`: `colors[id % colors.size()]`. -/
def TimeGraphGetColor (id : Nat) : Color :=
  (timeGraphPalette.get? (id % timeGraphPalette.length)).getD ⟨0, 0, 0, 255⟩

/-- `TimeGraph::GetThreadColor(tid)`: the palette color of
`static_cast<uint32_t>(tid)`. -/
def GetThreadColor (tid : Int) : Color :=
  TimeGraphGetColor (tid % (2 ^ 32)).toNat

/-- The green introspection color of `TimeGraph::ProcessTimer`. -/
def kGreenIntrospection : Color := ⟨87, 166, 74, 255⟩

/-- Modelled from the spec: the scheduler track (core-activity records,
multiplexed by core id into one lane per core; the lane split does not affect
any engine-side query). -/
structure SchedulerTrack where
  timers : List TimerInfo := []
  deriving DecidableEq, Repr

/-- Modelled from the spec: a per-thread track (function spans, organized by
depth; the depth split does not affect any engine-side query). -/
structure ThreadTrack where
  tid : Int := 0
  name : String := ""
  label : String := ""
  color : Color := ⟨0, 0, 0, 255⟩
  timers : List TimerInfo := []
  deriving DecidableEq, Repr

/-- Modelled from the spec: a GPU timeline track. -/
structure GpuTrack where
  timeline_hash : Nat := 0
  name : String := ""
  label : String := ""
  timers : List TimerInfo := []
  deriving DecidableEq, Repr

/-- Modelled from the spec: a scalar value-sample track; `AddValue` appends a
`(raw value, time)` sample. -/
structure GraphTrack where
  name : String := ""
  label : String := ""
  values : List (Nat × Nat) := []
  deriving DecidableEq, Repr

/-- Modelled from the spec: a manual-instrumentation async-span track. -/
structure AsyncTrack where
  name : String := ""
  timers : List TimerInfo := []
  deriving DecidableEq, Repr

/-- A stable handle into the track registries: the model of the
`shared_ptr<Track>` entries of the `tracks_` vector and of the
`sorted_tracks_` draw list (arena representation from the spec design
notes). -/
inductive TrackRef where
  | scheduler
  | thread (tid : Int)
  | gpu (timeline_hash : Nat)
  | graph (name : String)
  | async (name : String)
  deriving DecidableEq, Repr

/-! ## The engine state -/

/-- The mutable state of a `TimeGraph` instance: the fields of
`TimeGraph.h` that the embedded member functions read or write.
`process_track_` is not a separate field: in the C++ it always aliases
`thread_tracks_[kAllThreadsFakeTid]` (both the constructor and `Clear`
reassign it right after clearing the registry), so the model reads it from
the registry.  The `last_thread_reorder_` stopwatch reading is an input
(`Env.elapsed_reorder_ms`) because it measures wall-clock time. -/
structure TimeGraph where
  capture_min_timestamp_ : Nat := UINT64_MAX
  capture_max_timestamp_ : Nat := 0
  min_time_us_ : ℚ := 0
  max_time_us_ : ℚ := 0
  time_window_us_ : ℚ := 0
  zoom_value_ : ℚ := 0
  mouse_ratio_ : ℚ := 0
  ref_time_us_ : ℚ := 0
  world_start_x_ : ℚ := 0
  world_width_ : ℚ := 0
  thread_count_map_ : List (Int × Nat) := []
  event_count_ : List (Int × Nat) := []
  tracks_ : List TrackRef := []
  scheduler_track_ : Option SchedulerTrack := none
  thread_tracks_ : List (Int × ThreadTrack) := []
  gpu_tracks_ : List (Nat × GpuTrack) := []
  graph_tracks_ : List (String × GraphTrack) := []
  async_tracks_ : List (String × AsyncTrack) := []
  cores_seen_ : List Int := []
  sorted_tracks_ : List TrackRef := []
  thread_filter_ : String := ""
  needs_update_primitives_ : Bool := false
  needs_redraw_ : Bool := false
  iterator_text_boxes_ : List (Nat × TimerInfo) := []
  iterator_functions_ : List (Nat × FunctionInfo) := []
  selected_callstack_events_per_thread_ : List (Int × List CallstackEvent) := []
  current_mouse_time_ns_ : Nat := 0
  deriving DecidableEq, Repr

/-- Number of records a track holds (`Track::GetNumTimers`; for a value track
the number of samples). -/
def TimeGraph.trackNumTimers (tg : TimeGraph) : TrackRef → Nat
  | TrackRef.scheduler => ((tg.scheduler_track_).map (fun t => t.timers.length)).getD 0
  | TrackRef.thread tid =>
    ((mapLookup tg.thread_tracks_ tid).map (fun t => t.timers.length)).getD 0
  | TrackRef.gpu h =>
    ((mapLookup tg.gpu_tracks_ h).map (fun t => t.timers.length)).getD 0
  | TrackRef.graph n =>
    ((mapLookup tg.graph_tracks_ n).map (fun t => t.values.length)).getD 0
  | TrackRef.async n =>
    ((mapLookup tg.async_tracks_ n).map (fun t => t.timers.length)).getD 0

/-- Modelled from the spec: `Track::GetMinTime`, the least time seen by a
track (`0` when empty; `UpdateCaptureMinMaxTimestamps` only reads it on
non-empty tracks and ignores zero values). -/
def TimeGraph.trackMinTime (tg : TimeGraph) : TrackRef → Nat
  | TrackRef.scheduler =>
    ((tg.scheduler_track_).map (fun t => ((t.timers.map TimerInfo.start).min?).getD 0)).getD 0
  | TrackRef.thread tid =>
    ((mapLookup tg.thread_tracks_ tid).map
      (fun t => ((t.timers.map TimerInfo.start).min?).getD 0)).getD 0
  | TrackRef.gpu h =>
    ((mapLookup tg.gpu_tracks_ h).map
      (fun t => ((t.timers.map TimerInfo.start).min?).getD 0)).getD 0
  | TrackRef.graph n =>
    ((mapLookup tg.graph_tracks_ n).map
      (fun t => ((t.values.map Prod.snd).min?).getD 0)).getD 0
  | TrackRef.async n =>
    ((mapLookup tg.async_tracks_ n).map
      (fun t => ((t.timers.map TimerInfo.start).min?).getD 0)).getD 0

/-- The records of the thread track registered under `tid` (empty when no
such track exists).  Convenience accessor for stating theorems. -/
def TimeGraph.threadTrackTimers (tg : TimeGraph) (tid : Int) : List TimerInfo :=
  ((mapLookup tg.thread_tracks_ tid).map (fun t => t.timers)).getD []

/-! ## Engine operations from `TimeGraph.cpp` -/

/-- `TimeGraph::NeedsUpdate` (TimeGraph.cpp:542): request a primitive rebuild
and therefore also a redraw. -/
def TimeGraph.NeedsUpdate (tg : TimeGraph) : TimeGraph :=
  { tg with needs_update_primitives_ := true, needs_redraw_ := true }

/-- `TimeGraph::GetOrCreateSchedulerTrack` (TimeGraph.cpp:789): create the
scheduler track if the pointer is null and register it in `tracks_`. -/
def TimeGraph.GetOrCreateSchedulerTrack (tg : TimeGraph) : TimeGraph :=
  match tg.scheduler_track_ with
  | some _ => tg
  | none =>
    { tg with scheduler_track_ := some ({}),
              tracks_ := tg.tracks_ ++ [TrackRef.scheduler] }

/-- `TimeGraph::GetOrCreateThreadTrack` (TimeGraph.cpp:800): look the thread
track up in the registry, creating and registering it (with its thread color)
on first use. -/
def TimeGraph.GetOrCreateThreadTrack (tg : TimeGraph) (tid : Int) : TimeGraph :=
  match mapLookup tg.thread_tracks_ tid with
  | some _ => tg
  | none =>
    let m := mapInsert tid ({ tid := tid, color := GetThreadColor tid }) tg.thread_tracks_
    { tg with thread_tracks_ := m,
              tracks_ := tg.tracks_ ++ [TrackRef.thread tid] }

/-- `TimeGraph::GetOrCreateGpuTrack` (TimeGraph.cpp:812): look the GPU track
up by timeline hash, creating it with its name from the string manager and
its label from the GPU timeline mapping (both external). -/
def TimeGraph.GetOrCreateGpuTrack (env : Env) (tg : TimeGraph)
    (timeline_hash : Nat) : TimeGraph :=
  match mapLookup tg.gpu_tracks_ timeline_hash with
  | some _ => tg
  | none =>
    let timeline := (env.string_manager timeline_hash).getD ""
    let track : GpuTrack := { timeline_hash := timeline_hash, name := timeline,
                              label := env.gpu_track_label timeline }
    let m := mapInsert timeline_hash track tg.gpu_tracks_
    { tg with gpu_tracks_ := m,
              tracks_ := tg.tracks_ ++ [TrackRef.gpu timeline_hash] }

/-- `TimeGraph::GetOrCreateGraphTrack` (TimeGraph.cpp:828). -/
def TimeGraph.GetOrCreateGraphTrack (tg : TimeGraph) (name : String) :
    TimeGraph :=
  match mapLookup tg.graph_tracks_ name with
  | some _ => tg
  | none =>
    let m := mapInsert name ({ name := name, label := name }) tg.graph_tracks_
    { tg with graph_tracks_ := m,
              tracks_ := tg.tracks_ ++ [TrackRef.graph name] }

/-- `TimeGraph::GetOrCreateAsyncTrack` (TimeGraph.cpp:842). -/
def TimeGraph.GetOrCreateAsyncTrack (tg : TimeGraph) (name : String) :
    TimeGraph :=
  match mapLookup tg.async_tracks_ name with
  | some _ => tg
  | none =>
    let m := mapInsert name ({ name := name }) tg.async_tracks_
    { tg with async_tracks_ := m,
              tracks_ := tg.tracks_ ++ [TrackRef.async name] }

/-- `track->OnTimer(timer_info)` for a thread track obtained from the
registry: the shared-pointer mutation becomes an in-place map update
(modelled from the spec: `on_timer` appends the record). -/
def TimeGraph.threadTrackOnTimer (tg : TimeGraph) (tid : Int)
    (t : TimerInfo) : TimeGraph :=
  match mapLookup tg.thread_tracks_ tid with
  | none => tg
  | some tr =>
    let m := mapInsert tid ({ tr with timers := tr.timers ++ [t] }) tg.thread_tracks_
    { tg with thread_tracks_ := m }

/-- `track->SetColor(color)` on a thread track (used for introspection
timers). -/
def TimeGraph.setThreadTrackColor (tg : TimeGraph) (tid : Int) (c : Color) :
    TimeGraph :=
  match mapLookup tg.thread_tracks_ tid with
  | none => tg
  | some tr =>
    let m := mapInsert tid ({ tr with color := c }) tg.thread_tracks_
    { tg with thread_tracks_ := m }

/-- `track->OnTimer(timer_info)` for a GPU track. -/
def TimeGraph.gpuTrackOnTimer (tg : TimeGraph) (h : Nat) (t : TimerInfo) :
    TimeGraph :=
  match mapLookup tg.gpu_tracks_ h with
  | none => tg
  | some tr =>
    let m := mapInsert h ({ tr with timers := tr.timers ++ [t] }) tg.gpu_tracks_
    { tg with gpu_tracks_ := m }

/-- `scheduler_track_->OnTimer(timer_info)`; the pointer is non-null in every
state the engine itself produces (constructor and `Clear` recreate it), a
null pointer is modelled as a no-op. -/
def TimeGraph.schedulerTrackOnTimer (tg : TimeGraph) (t : TimerInfo) :
    TimeGraph :=
  let s' := tg.scheduler_track_.map (fun s => { s with timers := s.timers ++ [t] })
  { tg with scheduler_track_ := s' }

/-- `track->AddValue(value, time)` on a graph track (the `Decode<T>` bit
reinterpretation is external; the model stores the raw payload). -/
def TimeGraph.graphTrackAddValue (tg : TimeGraph) (name : String)
    (value time : Nat) : TimeGraph :=
  match mapLookup tg.graph_tracks_ name with
  | none => tg
  | some tr =>
    let m := mapInsert name ({ tr with values := tr.values ++ [(value, time)] }) tg.graph_tracks_
    { tg with graph_tracks_ := m }

/-- `TimeGraph::SetIteratorOverlayData` (declared in the header): replace the
marked-record overlay. -/
def TimeGraph.SetIteratorOverlayData (tg : TimeGraph)
    (boxes : List (Nat × TimerInfo)) (fns : List (Nat × FunctionInfo)) :
    TimeGraph :=
  { tg with iterator_text_boxes_ := boxes, iterator_functions_ := fns }

/-- `TimeGraph::Clear` (TimeGraph.cpp:96): reset extents, registries, core
set and overlay, then recreate the scheduler track and the synthetic process
track, and mark the engine dirty. -/
def TimeGraph.Clear (tg : TimeGraph) : TimeGraph :=
  let tg1 := { tg with
    capture_min_timestamp_ := UINT64_MAX
    capture_max_timestamp_ := 0
    thread_count_map_ := []
    tracks_ := []
    scheduler_track_ := none
    thread_tracks_ := []
    gpu_tracks_ := []
    graph_tracks_ := []
    async_tracks_ := []
    cores_seen_ := [] }
  let tg2 := tg1.GetOrCreateSchedulerTrack
  let tg3 := tg2.GetOrCreateThreadTrack kAllThreadsFakeTid
  (tg3.SetIteratorOverlayData [] []).NeedsUpdate

/-- `TimeGraph::UpdateCaptureMinMaxTimestamps` (TimeGraph.cpp:124): rescan
every non-empty track for the least start tick, fold in the external
callstack-event extent, and report whether any data exists. -/
def TimeGraph.UpdateCaptureMinMaxTimestamps (env : Env) (tg : TimeGraph) :
    Bool × TimeGraph :=
  let cmin := tg.tracks_.foldl
    (fun acc tr =>
      if tg.trackNumTimers tr > 0 then
        let m := tg.trackMinTime tr
        if 0 < m ∧ m < acc then m else acc
      else acc)
    UINT64_MAX
  let (cmin, cmax) :=
    if env.callstack.count > 0 then
      (min cmin env.callstack.min_time,
       max tg.capture_max_timestamp_ env.callstack.max_time)
    else (cmin, tg.capture_max_timestamp_)
  (decide (cmin ≠ UINT64_MAX),
   { tg with capture_min_timestamp_ := cmin, capture_max_timestamp_ := cmax })

/-- `TimeGraph::GetCaptureTimeSpanUs` (TimeGraph.cpp:173); note that it
mutates the capture extent through `UpdateCaptureMinMaxTimestamps`. -/
def TimeGraph.GetCaptureTimeSpanUs (env : Env) (tg : TimeGraph) :
    ℚ × TimeGraph :=
  let (has, tg1) := tg.UpdateCaptureMinMaxTimestamps env
  if has then
    (TicksToMicroseconds tg1.capture_min_timestamp_ tg1.capture_max_timestamp_,
     tg1)
  else (0, tg1)

/-- `TimeGraph::SetMinMax` (TimeGraph.cpp:233): clamp the requested window
start at `0`, preserve the requested width, clamp the end at the capture
span, and mark the engine dirty. -/
def TimeGraph.SetMinMax (env : Env) (tg : TimeGraph) (a b : ℚ) : TimeGraph :=
  let desired := b - a
  let (span, tg1) := tg.GetCaptureTimeSpanUs env
  let m := max a 0
  ({ tg1 with min_time_us_ := m, max_time_us_ := min (m + desired) span }).NeedsUpdate

/-- `GNumHistorySeconds` (TimeGraph.cpp:122): default zoom-to-fit history. -/
def GNumHistorySeconds : ℚ := 2

/-- `TimeGraph::ZoomAll` (TimeGraph.cpp:148): show the last
`GNumHistorySeconds` of the capture, clamped at `0`; a no-op without data. -/
def TimeGraph.ZoomAll (env : Env) (tg : TimeGraph) : TimeGraph :=
  let (has, tg1) := tg.UpdateCaptureMinMaxTimestamps env
  if has then
    let mx := TicksToMicroseconds tg1.capture_min_timestamp_
                tg1.capture_max_timestamp_
    let mn := mx - GNumHistorySeconds * 1000 * 1000
    let mn := if mn < 0 then 0 else mn
    ({ tg1 with max_time_us_ := mx, min_time_us_ := mn }).NeedsUpdate
  else tg1

/-- `TimeGraph::Zoom(uint64_t, uint64_t)` (TimeGraph.cpp:158): center on the
range midpoint with a 10% margin. -/
def TimeGraph.Zoom (env : Env) (tg : TimeGraph) (mn mx : Nat) : TimeGraph :=
  let start := TicksToMicroseconds tg.capture_min_timestamp_ mn
  let stop := TicksToMicroseconds tg.capture_min_timestamp_ mx
  let mid := start + (stop - start) / 2
  let extent := (11 / 10 : ℚ) * (stop - start) / 2
  tg.SetMinMax env (mid - extent) (mid + extent)

/-- The reference time `ZoomTime` anchors at: the mouse position inside the
current window (TimeGraph.cpp:190-191). -/
def TimeGraph.zoomTimeRef (tg : TimeGraph) (mr : ℚ) : ℚ :=
  tg.min_time_us_ + mr * (tg.max_time_us_ - tg.min_time_us_)

/-- The window start `ZoomTime` proposes (TimeGraph.cpp:187-196). -/
def TimeGraph.zoomTimeProposedMin (tg : TimeGraph) (zv mr : ℚ) : ℚ :=
  let scale := if zv > 0 then (11 / 10 : ℚ) else (10 / 11 : ℚ)
  let ref := tg.zoomTimeRef mr
  ref - scale * max (ref - tg.min_time_us_) 0

/-- The window end `ZoomTime` proposes (TimeGraph.cpp:187-197). -/
def TimeGraph.zoomTimeProposedMax (tg : TimeGraph) (zv mr : ℚ) : ℚ :=
  let scale := if zv > 0 then (11 / 10 : ℚ) else (10 / 11 : ℚ)
  let ref := tg.zoomTimeRef mr
  ref + scale * max (tg.max_time_us_ - ref) 0

/-- `TimeGraph::ZoomTime` (TimeGraph.cpp:183): multiplicative zoom anchored
at the mouse ratio.  The members `zoom_value_`, `mouse_ratio_` and
`ref_time_us_` are assigned before the degenerate-width check, so they change
even when the zoom itself is rejected. -/
def TimeGraph.ZoomTime (env : Env) (tg : TimeGraph) (zv mr : ℚ) : TimeGraph :=
  let tg1 := { tg with zoom_value_ := zv, mouse_ratio_ := mr,
                       ref_time_us_ := tg.zoomTimeRef mr }
  if tg.zoomTimeProposedMax zv mr - tg.zoomTimeProposedMin zv mr
      < (1 / 1000 : ℚ) then tg1
  else tg1.SetMinMax env (tg.zoomTimeProposedMin zv mr)
         (tg.zoomTimeProposedMax zv mr)

/-- `TimeGraph::PanTime` (TimeGraph.cpp:241): drag-to-time panning, clamped
so the window stays inside `[0, capture_span]` (when the span is at least the
window width). -/
def TimeGraph.PanTime (env : Env) (tg : TimeGraph)
    (initialX currentX width : Int) (initialTime : ℚ) : TimeGraph :=
  let tw := tg.max_time_us_ - tg.min_time_us_
  let tg1 := { tg with time_window_us_ := tw }
  let initialLocal := (initialX : ℚ) / (width : ℚ) * tw
  let dt := ((currentX - initialX : Int) : ℚ) / (width : ℚ) * tw
  let currentTime := initialTime - dt
  let (span, tg2) := tg1.GetCaptureTimeSpanUs env
  let mn := clampQ (currentTime - initialLocal) 0 (span - tw)
  ({ tg2 with min_time_us_ := mn, max_time_us_ := mn + tw }).NeedsUpdate

/-- `TimeGraph::OnDrag` (TimeGraph.cpp:305): place the window at the given
ratio of the pannable range (note: no dirty flag and no further clamping). -/
def TimeGraph.OnDrag (env : Env) (tg : TimeGraph) (r : ℚ) : TimeGraph :=
  let (span, tg1) := tg.GetCaptureTimeSpanUs env
  let tw := tg1.max_time_us_ - tg1.min_time_us_
  let mn := r * (span - tw)
  { tg1 with min_time_us_ := mn, max_time_us_ := mn + tw }

/-- `TimeGraph::GetTime` (TimeGraph.cpp:312). -/
def TimeGraph.GetTime (tg : TimeGraph) (r : ℚ) : ℚ :=
  tg.min_time_us_ + r * (tg.max_time_us_ - tg.min_time_us_)

/-- `TimeGraph::GetUsFromTick` (TimeGraph.cpp:465): microseconds of a tick
relative to the window start. -/
def TimeGraph.GetUsFromTick (tg : TimeGraph) (time : Nat) : ℚ :=
  TicksToMicroseconds tg.capture_min_timestamp_ time - tg.min_time_us_

/-- `TimeGraph::GetTickFromUs` (TimeGraph.cpp:476). -/
def TimeGraph.GetTickFromUs (tg : TimeGraph) (micros : ℚ) : Nat :=
  tg.capture_min_timestamp_ + doubleToUint64 (1000 * micros)

/-- `TimeGraph::GetTickFromWorld` (TimeGraph.cpp:469). -/
def TimeGraph.GetTickFromWorld (tg : TimeGraph) (world_x : ℚ) : Nat :=
  let r := if tg.world_width_ ≠ 0
           then (world_x - tg.world_start_x_) / tg.world_width_ else 0
  tg.capture_min_timestamp_ + doubleToUint64 (1000 * tg.GetTime r)

/-- The visibility criteria of `TimeGraph::HorizontallyMoveIntoView`. -/
inductive VisibilityType where
  | kPartlyVisible
  | kFullyVisible
  deriving DecidableEq, Repr

/-- `TimeGraph::IsFullyVisible` (TimeGraph.cpp:1062): both ends strictly
inside the window. -/
def TimeGraph.IsFullyVisible (tg : TimeGraph) (mn mx : Nat) : Bool :=
  let start := TicksToMicroseconds tg.capture_min_timestamp_ mn
  let stop := TicksToMicroseconds tg.capture_min_timestamp_ mx
  decide (tg.min_time_us_ < start ∧ stop < tg.max_time_us_)

/-- `TimeGraph::IsPartlyVisible` (TimeGraph.cpp:1069). -/
def TimeGraph.IsPartlyVisible (tg : TimeGraph) (mn mx : Nat) : Bool :=
  let start := TicksToMicroseconds tg.capture_min_timestamp_ mn
  let stop := TicksToMicroseconds tg.capture_min_timestamp_ mx
  !(decide (tg.min_time_us_ > stop ∨ tg.max_time_us_ < start))

/-- `TimeGraph::IsVisible` (TimeGraph.cpp:1082). -/
def TimeGraph.IsVisible (tg : TimeGraph) (vt : VisibilityType) (mn mx : Nat) :
    Bool :=
  match vt with
  | VisibilityType.kPartlyVisible => tg.IsPartlyVisible mn mx
  | VisibilityType.kFullyVisible => tg.IsFullyVisible mn mx

/-- `TimeGraph::HorizontallyMoveIntoView` (TimeGraph.cpp:253): no-op when the
range is already visible under the requested criterion; zoom to it when it is
wider than the window; otherwise recenter, mirroring the bias when the target
lies left of the window. -/
def TimeGraph.HorizontallyMoveIntoView (env : Env) (tg : TimeGraph)
    (vt : VisibilityType) (mn mx : Nat) (distance : ℚ) : TimeGraph :=
  if tg.IsVisible vt mn mx then tg
  else
    let start := TicksToMicroseconds tg.capture_min_timestamp_ mn
    let stop := TicksToMicroseconds tg.capture_min_timestamp_ mx
    let window := tg.max_time_us_ - tg.min_time_us_
    if vt = VisibilityType.kFullyVisible ∧ window < stop - start then
      tg.Zoom env mn mx
    else
      let mid := start + (stop - start) / 2
      let d := if start < tg.min_time_us_ then 1 - distance else distance
      (tg.SetMinMax env (mid - window * (1 - d)) (mid + window * d)).NeedsUpdate

/-! ## Ingestion -/

/-- `TimeGraph::ProcessValueTrackingTimer` (TimeGraph.cpp:371): decoded
string events go to the external manual-instrumentation manager; tracked
scalar values are appended to the graph track named by the event; an
unsupported type is logged and the sample dropped. -/
def TimeGraph.ProcessValueTrackingTimer (tg : TimeGraph) (t : TimerInfo) :
    TimeGraph :=
  let event := t.api_event
  if event.type = ApiEventType.kString then tg
  else
    let tg1 := tg.GetOrCreateGraphTrack event.name
    match event.type with
    | ApiEventType.kTrackInt => tg1.graphTrackAddValue event.name event.value t.start
    | ApiEventType.kTrackInt64 => tg1.graphTrackAddValue event.name event.value t.start
    | ApiEventType.kTrackUint => tg1.graphTrackAddValue event.name event.value t.start
    | ApiEventType.kTrackUint64 => tg1.graphTrackAddValue event.name event.value t.start
    | ApiEventType.kTrackFloat => tg1.graphTrackAddValue event.name event.value t.start
    | ApiEventType.kTrackDouble => tg1.graphTrackAddValue event.name event.value t.start
    | _ => tg1

/-- `TimeGraph::ProcessOrbitFunctionTimer` (TimeGraph.cpp:355).  The async
start/stop cases hand the record to the external
`ManualInstrumentationManager` (outside `src/`), which owns the pairing state
and later re-enters the engine through `ProcessAsyncTimer`; on the engine
state itself they are no-ops. -/
def TimeGraph.ProcessOrbitFunctionTimer (tg : TimeGraph)
    (ot : FunctionOrbitType) (t : TimerInfo) : TimeGraph :=
  match ot with
  | FunctionOrbitType.kOrbitTrackValue => tg.ProcessValueTrackingTimer t
  | FunctionOrbitType.kOrbitTimerStartAsync => tg
  | FunctionOrbitType.kOrbitTimerStopAsync => tg
  | _ => tg

/-- `TimeGraph::ProcessAsyncTimer` (TimeGraph.cpp:407): the listener entry
point invoked by the external manual-instrumentation manager. -/
def TimeGraph.ProcessAsyncTimer (tg : TimeGraph) (track_name : String)
    (t : TimerInfo) : TimeGraph :=
  let tg1 := tg.GetOrCreateAsyncTrack track_name
  match mapLookup tg1.async_tracks_ track_name with
  | none => tg1
  | some tr =>
    let m := mapInsert track_name ({ tr with timers := tr.timers ++ [t] }) tg1.async_tracks_
    { tg1 with async_tracks_ := m }

/-- The dispatch step of `TimeGraph::ProcessTimer` (TimeGraph.cpp:332-350):
GPU records go to their timeline track; core-activity records to the
scheduler track plus the cores-seen set; everything else to its thread track
together with a `thread_count_map_` increment (introspection records also
recolor the track).  The thread track is looked up / created before the
core-activity branch is decided. -/
def TimeGraph.processTimerRoute (env : Env) (tg : TimeGraph) (t : TimerInfo) :
    TimeGraph :=
  if t.type = TimerType.kGpuActivity then
    (TimeGraph.GetOrCreateGpuTrack env tg t.timeline_hash).gpuTrackOnTimer
      t.timeline_hash t
  else
    let tgA := tg.GetOrCreateThreadTrack t.thread_id
    let tgB := if t.type = TimerType.kIntrospection
               then tgA.setThreadTrackColor t.thread_id kGreenIntrospection
               else tgA
    if t.type ≠ TimerType.kCoreActivity then
      let tgC := tgB.threadTrackOnTimer t.thread_id t
      { tgC with thread_count_map_ := mapIncr tgC.thread_count_map_ t.thread_id }
    else
      let tgC := tgB.schedulerTrackOnTimer t
      { tgC with cores_seen_ := setInsert t.processor tgC.cores_seen_ }

/-- The manual-instrumentation hook of `TimeGraph::ProcessTimer`
(TimeGraph.cpp:328-330). -/
def TimeGraph.processTimerHook (tg : TimeGraph) (t : TimerInfo)
    (function : Option FunctionInfo) : TimeGraph :=
  match function with
  | some f =>
    if f.orbit_type ≠ FunctionOrbitType.kNone
    then tg.ProcessOrbitFunctionTimer f.orbit_type t else tg
  | none => tg

/-- The `capture_max_timestamp_` widening of `TimeGraph::ProcessTimer`
(TimeGraph.cpp:324-326). -/
def TimeGraph.processTimerWiden (tg : TimeGraph) (t : TimerInfo) : TimeGraph :=
  if t.end_ > tg.capture_max_timestamp_
  then { tg with capture_max_timestamp_ := t.end_ } else tg

def TimeGraph.ProcessTimer (env : Env) (tg : TimeGraph) (t : TimerInfo)
    (function : Option FunctionInfo) : TimeGraph :=
  (TimeGraph.processTimerRoute env
    ((tg.processTimerWiden t).processTimerHook t function) t).NeedsUpdate

/-- A whole sequence of `ProcessTimer` deliveries. -/
def TimeGraph.processTimerSeq (env : Env) (tg : TimeGraph)
    (calls : List (TimerInfo × Option FunctionInfo)) : TimeGraph :=
  calls.foldl (fun s c => TimeGraph.ProcessTimer env s c.1 c.2) tg

/-! ## Selection -/

/-- `TimeGraph::SelectEvents` (TimeGraph.cpp:576): normalize the world-space
range, convert to ticks, query the external event index (whole process or a
single thread), rebuild the per-thread selection map with the extra
all-threads bucket, mark the engine dirty and return the selected events. -/
def TimeGraph.SelectEvents (env : Env) (tg : TimeGraph)
    (world_start world_end : ℚ) (thread_id : Int) :
    List CallstackEvent × TimeGraph :=
  let (ws, we) := if world_start > world_end then (world_end, world_start)
                  else (world_start, world_end)
  let t0 := tg.GetTickFromWorld ws
  let t1 := tg.GetTickFromWorld we
  let selected :=
    if thread_id = kAllThreadsFakeTid then env.callstack.eventsInRange t0 t1
    else env.callstack.eventsOfTidInRange thread_id t0 t1
  let perThread := selected.foldl
    (fun m e =>
      let m1 := mapAdjust e.thread_id (fun l => (l.getD []) ++ [e]) m
      mapAdjust kAllThreadsFakeTid (fun l => (l.getD []) ++ [e]) m1)
    []
  (selected,
   ({ tg with selected_callstack_events_per_thread_ := perThread }).NeedsUpdate)

/-! ## Track sorting -/

/-- Modelled from the spec: `OrbitUtils::ReverseValueSort` (outside `src/`),
ranking map entries by descending value (spec section 4.4); ties keep the
key-sorted map order (the model's determinization of the unspecified C++
tie order, realized as a stable insertion sort). -/
def reverseValueSort (m : List (Int × Nat)) : List (Int × Nat) :=
  let rec insertDesc (p : Int × Nat) : List (Int × Nat) → List (Int × Nat)
    | [] => [p]
    | q :: rest =>
      if q.2 ≤ p.2 then p :: q :: rest else q :: insertDesc p rest
  m.foldr insertDesc []

/-- The thread-id ranking of `TimeGraph::SortTracks` (TimeGraph.cpp:875-896):
threads with instrumented hits first (by descending hit count), then
remaining threads by descending callstack-event count; the synthetic
all-threads id is excluded from both passes. -/
def TimeGraph.sortedThreadIdsOf (tg : TimeGraph) : List Int :=
  let first := (reverseValueSort tg.thread_count_map_).filterMap
    (fun p => if p.1 ≠ kAllThreadsFakeTid then some p.1 else none)
  let second := (reverseValueSort tg.event_count_).filterMap
    (fun p =>
      if p.1 = kAllThreadsFakeTid then none
      else if mapLookup tg.thread_count_map_ p.1 = none then some p.1
      else none)
  first ++ second

/-- The thread-name filter pass of `TimeGraph::SortTracks`
(TimeGraph.cpp:898-912): split the filter on spaces and keep a thread id once
per filter word contained in its track name (a get-or-create runs per id, so
the registry can grow here). -/
def TimeGraph.filterThreadIds (tg : TimeGraph) (ids : List Int) :
    TimeGraph × List Int :=
  if tg.thread_filter_ = "" then (tg, ids)
  else
    let filters := tg.thread_filter_.splitOn " "
    ids.foldl
      (fun acc tid =>
        let tg' := acc.1.GetOrCreateThreadTrack tid
        let name :=
          ((mapLookup tg'.thread_tracks_ tid).map (fun tr => tr.name)).getD ""
        let hits := filters.foldl
          (fun l f => if strContains name f then l ++ [tid] else l) []
        (tg', acc.2 ++ hits))
      (tg, [])

/-- The draw-list rebuild of `TimeGraph::SortTracks` (TimeGraph.cpp:914-947):
scheduler track first when non-empty, then every GPU, graph and async track
unconditionally (in registry key order), then the synthetic process track
when non-empty, then the ranked thread tracks, each skipped when empty. -/
def TimeGraph.rebuildSortedTracks (tg : TimeGraph) (threadIds : List Int) :
    TimeGraph :=
  let sched : List TrackRef :=
    match tg.scheduler_track_ with
    | some s => if s.timers.isEmpty then [] else [TrackRef.scheduler]
    | none => []
  let gpus := tg.gpu_tracks_.map (fun p => TrackRef.gpu p.1)
  let graphs := tg.graph_tracks_.map (fun p => TrackRef.graph p.1)
  let asyncs := tg.async_tracks_.map (fun p => TrackRef.async p.1)
  let process : List TrackRef :=
    match mapLookup tg.thread_tracks_ kAllThreadsFakeTid with
    | some tr => if tr.timers.isEmpty then [] else [TrackRef.thread kAllThreadsFakeTid]
    | none => []
  let (tgF, threads) := threadIds.foldl
    (fun acc tid =>
      let tg' := acc.1.GetOrCreateThreadTrack tid
      match mapLookup tg'.thread_tracks_ tid with
      | some tr =>
        (tg', if tr.timers.isEmpty then acc.2 else acc.2 ++ [TrackRef.thread tid])
      | none => (tg', acc.2))
    (tg, [])
  { tgF with sorted_tracks_ := sched ++ gpus ++ graphs ++ asyncs ++ process ++ threads }

/-- `TimeGraph::SortTracks` (TimeGraph.cpp:859): refresh `event_count_` and
the thread-track registry from the external callstack index, then — when not
capturing, or at most once per second while capturing — rank, filter and
rebuild the draw list. -/
def TimeGraph.SortTracks (env : Env) (tg : TimeGraph) : TimeGraph :=
  let ec := mapInsert kAllThreadsFakeTid env.callstack.count []
  let tg1 := { tg with event_count_ := ec }
  let tg2 := tg1.GetOrCreateThreadTrack kAllThreadsFakeTid
  let tg3 := env.callstack.countsPerTid.foldl
    (fun s p =>
      let s1 := { s with event_count_ := mapInsert p.1 p.2 s.event_count_ }
      s1.GetOrCreateThreadTrack p.1)
    tg2
  if !env.is_capturing || env.elapsed_reorder_ms > 1000 then
    let ids := tg3.sortedThreadIdsOf
    let (tg4, ids) := tg3.filterThreadIds ids
    tg4.rebuildSortedTracks ids
  else tg3

/-! ## Overlay drawing -/

/-- The viewport geometry and layout constants the overlay drawing reads from
the external canvas / layout collaborators. -/
structure Canvas where
  world_top_left_x : ℚ := 0
  world_width : ℚ := 0
  world_top_left_y : ℚ := 0
  world_height : ℚ := 0
  bottom_margin : ℚ := 0

/-- The picking modes of the render pass. -/
inductive PickingMode where
  | kNone
  | kHover
  | kClick
  deriving DecidableEq, Repr

/-- The primitives `TimeGraph::DrawOverlay` hands to the drawing
collaborator.  A `pairBox` is one `DrawIteratorBox` call from the
adjacent-pair loop (its label and elapsed-time text are formatted externally
from the carried data); a `totalBox` is the `DrawIteratorBox` call of the
three-or-more-markers summary. -/
inductive OverlayPrimitive where
  | verticalLine (x : ℚ) (height : ℚ) (color : Color)
  | pairBox (x width : ℚ) (color : Color) (fa fb : Option FunctionInfo)
      (ta tb : TimerInfo) (text_y : ℚ)
  | totalBox (x width : ℚ) (ta tb : TimerInfo) (text_y : ℚ)
  deriving DecidableEq, Repr

/-- Whether a primitive is the "Total" annotation. -/
def OverlayPrimitive.isTotal : OverlayPrimitive → Bool
  | OverlayPrimitive.totalBox _ _ _ _ _ => true
  | _ => false

/-- Stable insertion sort of the marked boxes by start tick
(`std::sort` with the start-time comparator at TimeGraph.cpp:680; the model
determinizes the unstable C++ sort). -/
def sortBoxesByStart (l : List (Nat × TimerInfo)) : List (Nat × TimerInfo) :=
  let rec insertOne (b : Nat × TimerInfo) :
      List (Nat × TimerInfo) → List (Nat × TimerInfo)
    | [] => [b]
    | b' :: rest =>
      if b.2.start < b'.2.start then b :: b' :: rest else b' :: insertOne b rest
  l.foldr insertOne []

/-- The cached world x coordinate of a marked record
(TimeGraph.cpp:703-705). -/
def TimeGraph.overlayWorldX (tg : TimeGraph) (canvas : Canvas) (t : TimerInfo) : ℚ :=
  canvas.world_top_left_x +
    (tg.GetUsFromTick t.start * (1 / tg.time_window_us_)) * canvas.world_width

/-- `TimeGraph::DrawOverlay` (TimeGraph.cpp:671) as the list of primitives it
emits: nothing in picking mode or with no marked records; otherwise one
vertical line per marked record (in start order), one `DrawIteratorBox` per
adjacent pair — whose `text_y` computation divides the available height by
`size() - 1` — and, from three markers up, one "Total" box. -/
def TimeGraph.DrawOverlay (tg : TimeGraph) (canvas : Canvas)
    (picking_mode : PickingMode) : List OverlayPrimitive :=
  if picking_mode ≠ PickingMode.kNone ∨ tg.iterator_text_boxes_.length = 0 then []
  else
    let boxes := sortBoxesByStart tg.iterator_text_boxes_
    let lines := boxes.map (fun b =>
      OverlayPrimitive.verticalLine (tg.overlayWorldX canvas b.2)
        (-canvas.world_height) (GetThreadColor b.2.thread_id))
    let n := tg.iterator_text_boxes_.length
    let pairs := (boxes.zip (boxes.drop 1)).enum.map (fun p =>
      let k : Nat := p.1 + 1
      let bA := p.2.1
      let bB := p.2.2
      let xA := tg.overlayWorldX canvas bA.2
      let xB := tg.overlayWorldX canvas bB.2
      let heightPerText := ((canvas.world_height / 2) - canvas.bottom_margin) /
        ((n : ℚ) - 1)
      let textY := (canvas.world_top_left_y - canvas.world_height) +
        (canvas.world_height / 2) - (k : ℚ) * heightPerText
      OverlayPrimitive.pairBox xA (xB - xA)
        (TimeGraphGetColor ((k - 1) % 2)) (mapLookup tg.iterator_functions_ bA.1)
        (mapLookup tg.iterator_functions_ bB.1) bA.2 bB.2 textY)
    let total :=
      if boxes.length > 2 then
        match boxes.head?, boxes.getLast? with
        | some b0, some bL =>
          let x0 := tg.overlayWorldX canvas b0.2
          let xL := tg.overlayWorldX canvas bL.2
          [OverlayPrimitive.totalBox x0 (xL - x0) b0.2 bL.2
            ((canvas.world_top_left_y - canvas.world_height) +
              canvas.world_height / 2)]
        | _, _ => []
      else []
    lines ++ pairs ++ total

/-! ## Shared preservation lemmas -/

theorem cmax_NeedsUpdate (tg : TimeGraph) :
    tg.NeedsUpdate.capture_max_timestamp_ = tg.capture_max_timestamp_ := rfl

theorem cmax_GetOrCreateThreadTrack (tg : TimeGraph) (tid : Int) :
    (tg.GetOrCreateThreadTrack tid).capture_max_timestamp_ =
      tg.capture_max_timestamp_ := by
  unfold TimeGraph.GetOrCreateThreadTrack; split <;> rfl

theorem cmax_GetOrCreateGpuTrack (env : Env) (tg : TimeGraph) (h : Nat) :
    (TimeGraph.GetOrCreateGpuTrack env tg h).capture_max_timestamp_ =
      tg.capture_max_timestamp_ := by
  unfold TimeGraph.GetOrCreateGpuTrack; split <;> rfl

theorem cmax_GetOrCreateGraphTrack (tg : TimeGraph) (n : String) :
    (tg.GetOrCreateGraphTrack n).capture_max_timestamp_ =
      tg.capture_max_timestamp_ := by
  unfold TimeGraph.GetOrCreateGraphTrack; split <;> rfl

theorem cmax_threadTrackOnTimer (tg : TimeGraph) (tid : Int) (t : TimerInfo) :
    (tg.threadTrackOnTimer tid t).capture_max_timestamp_ =
      tg.capture_max_timestamp_ := by
  unfold TimeGraph.threadTrackOnTimer; split <;> rfl

theorem cmax_setThreadTrackColor (tg : TimeGraph) (tid : Int) (c : Color) :
    (tg.setThreadTrackColor tid c).capture_max_timestamp_ =
      tg.capture_max_timestamp_ := by
  unfold TimeGraph.setThreadTrackColor; split <;> rfl

theorem cmax_gpuTrackOnTimer (tg : TimeGraph) (h : Nat) (t : TimerInfo) :
    (tg.gpuTrackOnTimer h t).capture_max_timestamp_ =
      tg.capture_max_timestamp_ := by
  unfold TimeGraph.gpuTrackOnTimer; split <;> rfl

theorem cmax_schedulerTrackOnTimer (tg : TimeGraph) (t : TimerInfo) :
    (tg.schedulerTrackOnTimer t).capture_max_timestamp_ =
      tg.capture_max_timestamp_ := rfl

theorem cmax_graphTrackAddValue (tg : TimeGraph) (n : String) (v tm : Nat) :
    (tg.graphTrackAddValue n v tm).capture_max_timestamp_ =
      tg.capture_max_timestamp_ := by
  unfold TimeGraph.graphTrackAddValue; split <;> rfl

theorem cmax_ProcessValueTrackingTimer (tg : TimeGraph) (t : TimerInfo) :
    (tg.ProcessValueTrackingTimer t).capture_max_timestamp_ =
      tg.capture_max_timestamp_ := by
  simp only [TimeGraph.ProcessValueTrackingTimer]
  split
  · rfl
  · split <;> simp [cmax_graphTrackAddValue, cmax_GetOrCreateGraphTrack]

theorem cmax_ProcessOrbitFunctionTimer (tg : TimeGraph)
    (ot : FunctionOrbitType) (t : TimerInfo) :
    (tg.ProcessOrbitFunctionTimer ot t).capture_max_timestamp_ =
      tg.capture_max_timestamp_ := by
  unfold TimeGraph.ProcessOrbitFunctionTimer
  split <;> simp [cmax_ProcessValueTrackingTimer]

theorem cmax_processTimerHook (tg : TimeGraph) (t : TimerInfo)
    (f : Option FunctionInfo) :
    (tg.processTimerHook t f).capture_max_timestamp_ =
      tg.capture_max_timestamp_ := by
  unfold TimeGraph.processTimerHook
  cases f with
  | none => rfl
  | some fi =>
    simp only []
    split <;> simp [cmax_ProcessOrbitFunctionTimer]

theorem cmax_processTimerRoute (env : Env) (tg : TimeGraph) (t : TimerInfo) :
    (TimeGraph.processTimerRoute env tg t).capture_max_timestamp_ =
      tg.capture_max_timestamp_ := by
  simp only [TimeGraph.processTimerRoute]
  split
  · rw [cmax_gpuTrackOnTimer, cmax_GetOrCreateGpuTrack]
  · split <;>
      simp [cmax_threadTrackOnTimer, cmax_schedulerTrackOnTimer,
        cmax_setThreadTrackColor, cmax_GetOrCreateThreadTrack] <;>
      split <;>
      simp [cmax_setThreadTrackColor, cmax_GetOrCreateThreadTrack]

theorem cmax_processTimerWiden (tg : TimeGraph) (t : TimerInfo) :
    (tg.processTimerWiden t).capture_max_timestamp_ =
      max tg.capture_max_timestamp_ t.end_ := by
  unfold TimeGraph.processTimerWiden
  split <;> simp <;> omega

/-- `ProcessTimer` leaves `capture_max_timestamp_` at the maximum of its old
value and the delivered record's end tick. -/
theorem cmax_ProcessTimer (env : Env) (tg : TimeGraph) (t : TimerInfo)
    (f : Option FunctionInfo) :
    (TimeGraph.ProcessTimer env tg t f).capture_max_timestamp_ =
      max tg.capture_max_timestamp_ t.end_ := by
  unfold TimeGraph.ProcessTimer
  rw [cmax_NeedsUpdate, cmax_processTimerRoute, cmax_processTimerHook,
    cmax_processTimerWiden]

theorem cmax_processTimerSeq_mono (env : Env)
    (calls : List (TimerInfo × Option FunctionInfo)) (tg : TimeGraph) :
    tg.capture_max_timestamp_ ≤
      (tg.processTimerSeq env calls).capture_max_timestamp_ := by
  induction calls generalizing tg with
  | nil => exact le_refl _
  | cons c cs ih =>
    calc tg.capture_max_timestamp_
        ≤ (TimeGraph.ProcessTimer env tg c.1 c.2).capture_max_timestamp_ := by
          rw [cmax_ProcessTimer]; exact le_max_left _ _
      _ ≤ _ := ih _

theorem processTimerSeq_append (env : Env) (tg : TimeGraph)
    (l1 l2 : List (TimerInfo × Option FunctionInfo)) :
    tg.processTimerSeq env (l1 ++ l2) =
      (tg.processTimerSeq env l1).processTimerSeq env l2 := by
  simp [TimeGraph.processTimerSeq, List.foldl_append]

/-! ## The claims -/

/-- Shared example environment (no callstack data, not capturing). -/
def exEnv0 : Env := {}

/-- Shared example engine state (all fields at their defaults). -/
def exTG0 : TimeGraph := {}

/-- Claim C1: along any sequence of `ProcessTimer` calls, from any engine
state, `capture_max_timestamp_` is non-decreasing (every prefix's value is at
most the final value), and right after each call it is at least the delivered
record's end tick — hence the final value dominates every delivered end. -/
theorem processTimer_capture_max_monotone (env : Env) (tg : TimeGraph)
    (calls : List (TimerInfo × Option FunctionInfo)) :
    (∀ pre suf, calls = pre ++ suf →
      (tg.processTimerSeq env pre).capture_max_timestamp_ ≤
        (tg.processTimerSeq env calls).capture_max_timestamp_) ∧
    (∀ pre c suf, calls = pre ++ c :: suf →
      c.1.end_ ≤
          (tg.processTimerSeq env (pre ++ [c])).capture_max_timestamp_ ∧
        c.1.end_ ≤ (tg.processTimerSeq env calls).capture_max_timestamp_) := by
  constructor
  · intro pre suf hsplit
    subst hsplit
    rw [processTimerSeq_append]
    exact cmax_processTimerSeq_mono env suf _
  · intro pre c suf hsplit
    have hstep : c.1.end_ ≤
        (tg.processTimerSeq env (pre ++ [c])).capture_max_timestamp_ := by
      rw [processTimerSeq_append]
      show c.1.end_ ≤
        (TimeGraph.processTimerSeq env (tg.processTimerSeq env pre) [c]).capture_max_timestamp_
      simp only [TimeGraph.processTimerSeq, List.foldl_cons, List.foldl_nil]
      rw [cmax_ProcessTimer]
      exact le_max_right _ _
    refine ⟨hstep, ?_⟩
    have hrest : calls = (pre ++ [c]) ++ suf := by simp [hsplit]
    calc c.1.end_
        ≤ (tg.processTimerSeq env (pre ++ [c])).capture_max_timestamp_ := hstep
      _ ≤ (tg.processTimerSeq env calls).capture_max_timestamp_ := by
          rw [hrest, processTimerSeq_append env tg (pre ++ [c]) suf]
          exact cmax_processTimerSeq_mono env suf _

/-- Concrete instantiation of the C1 theorem: one delivered record with end
tick `5`, starting from the default state. -/
theorem processTimer_capture_max_monotone_witness :
    (5 : Nat) ≤
      (exTG0.processTimerSeq exEnv0
        [({ end_ := 5 }, none)]).capture_max_timestamp_ := by
  have h := (processTimer_capture_max_monotone exEnv0 exTG0
    [(({ end_ := 5 } : TimerInfo), none)]).2 [] ({ end_ := 5 }, none) [] rfl
  simpa using h.2

/-- The FunctionSpan record of the ingestion scenario:
`start=100, end=200, thread=7, depth=0`. -/
def fnspanC5 : TimerInfo := { start := 100, end_ := 200, thread_id := 7, depth := 0 }

/-- The CoreActivity record of the ingestion scenario:
`start=50, end=90, core=2` (delivered on some scheduled thread, here 3). -/
def coreC5 : TimerInfo :=
  { start := 50, end_ := 90, thread_id := 3, type := TimerType.kCoreActivity,
    processor := 2 }

/-- A cleared engine after ingesting the two scenario records. -/
def engineC5 : TimeGraph :=
  TimeGraph.ProcessTimer exEnv0
    (TimeGraph.ProcessTimer exEnv0 exTG0.Clear fnspanC5 none) coreC5 none

/-- Claim C5: ingesting one FunctionSpan (`start=100, end=200, thread=7,
depth=0`) and one CoreActivity (`start=50, end=90, core=2`) into a cleared
engine yields `capture_max_timestamp_ = 200`, a thread track for id 7 holding
exactly that one record, and the cores-seen set `{2}`. -/
theorem scenario_ingest_two_records :
    engineC5.capture_max_timestamp_ = 200 ∧
    engineC5.threadTrackTimers 7 = [fnspanC5] ∧
    engineC5.cores_seen_ = [2] := by decide

/-- An engine whose window starts one microsecond into the capture
(`min_time_us_ = 1`); `GetUsFromTick` subtracts the window start but
`GetTickFromUs` does not add it back. -/
def engineC3 : TimeGraph :=
  { capture_min_timestamp_ := 1000000, capture_max_timestamp_ := 2000000,
    min_time_us_ := 1 }

/-- Claim C3 counterexample: with `capture_min_timestamp_ = 1,000,000` and a
window starting at `min_time_us_ = 1`, the tick `1,050,000` lies inside the
capture extent, yet `GetTickFromUs (GetUsFromTick t)` returns `1,049,000`,
which differs from `t` by `1000` ticks — far more than the claimed 1-tick
bound.  (`GetUsFromTick` is window-relative, `GetTickFromUs` is
capture-relative, so they are only mutually inverse when the window starts
at the capture start.) -/
theorem tick_us_roundtrip_counterexample :
    engineC3.capture_min_timestamp_ ≤ 1050000 ∧
    1050000 ≤ engineC3.capture_max_timestamp_ ∧
    engineC3.GetTickFromUs (engineC3.GetUsFromTick 1050000) = 1049000 ∧
    1049000 + 1 < 1050000 := by
  refine ⟨by norm_num [engineC3], by norm_num [engineC3], ?_, by norm_num⟩
  norm_num [engineC3, TimeGraph.GetUsFromTick, TimeGraph.GetTickFromUs,
    TicksToMicroseconds, doubleToUint64]
  omega

/-- Claim C3 (amended): when the visible window starts at the capture start
(`min_time_us_ = 0`), `GetTickFromUs` is exactly inverse to `GetUsFromTick`
on every tick at or after `capture_min_timestamp_` (in particular on every
tick of the capture extent); with a nonzero window start the composition is
shifted by the window start, as the counterexample shows. -/
theorem tick_us_roundtrip_amended (tg : TimeGraph) (t : Nat)
    (h0 : tg.min_time_us_ = 0) (h1 : tg.capture_min_timestamp_ ≤ t) :
    tg.GetTickFromUs (tg.GetUsFromTick t) = t := by
  unfold TimeGraph.GetTickFromUs TimeGraph.GetUsFromTick TicksToMicroseconds
    doubleToUint64
  rw [h0, sub_zero]
  have key : (1000 : ℚ) *
      ((((t : ℤ) : ℚ) - ((tg.capture_min_timestamp_ : ℤ) : ℚ)) / 1000) =
      (((t : ℤ) - (tg.capture_min_timestamp_ : ℤ) : ℤ) : ℚ) := by
    push_cast
    ring
  rw [key, Int.floor_intCast]
  omega

/-- Concrete instantiation of the amended C3 theorem: the spec scenario
itself, `capture_min_timestamp_ = 1,000,000`, window start `0`, tick
`1,050,000` round-trips exactly. -/
theorem tick_us_roundtrip_amended_witness :
    ({ capture_min_timestamp_ := 1000000,
       capture_max_timestamp_ := 2000000 } : TimeGraph).GetTickFromUs
      (({ capture_min_timestamp_ := 1000000,
          capture_max_timestamp_ := 2000000 } : TimeGraph).GetUsFromTick
        1050000) = 1050000 :=
  tick_us_roundtrip_amended _ 1050000 rfl (by norm_num)

theorem cmin_GetOrCreateSchedulerTrack (tg : TimeGraph) :
    tg.GetOrCreateSchedulerTrack.capture_min_timestamp_ =
      tg.capture_min_timestamp_ := by
  unfold TimeGraph.GetOrCreateSchedulerTrack; split <;> rfl

theorem cmax_GetOrCreateSchedulerTrack (tg : TimeGraph) :
    tg.GetOrCreateSchedulerTrack.capture_max_timestamp_ =
      tg.capture_max_timestamp_ := by
  unfold TimeGraph.GetOrCreateSchedulerTrack; split <;> rfl

theorem cmin_GetOrCreateThreadTrack (tg : TimeGraph) (tid : Int) :
    (tg.GetOrCreateThreadTrack tid).capture_min_timestamp_ =
      tg.capture_min_timestamp_ := by
  unfold TimeGraph.GetOrCreateThreadTrack; split <;> rfl

/-- The engine right after `Clear`. -/
def engineC2 : TimeGraph := exTG0.Clear

/-- Claim C2 counterexample: the state reached by `Clear` — one of the listed
window-mutating operations — violates `capture_min_tick ≤ capture_max_tick`
(`Clear` parks `capture_min_timestamp_` at the `UINT64_MAX` sentinel with
`capture_max_timestamp_ = 0`), and one further reachable step
`SetMinMax 5 6` violates `min_time_us_ ≤ max_time_us_` and leaves the window
outside `[0, capture_time_span]` (the span of the empty capture is `0`, yet
`min_time_us_` becomes `5`). -/
theorem clear_invariant_counterexample :
    engineC2.capture_min_timestamp_ = UINT64_MAX ∧
    engineC2.capture_max_timestamp_ = 0 ∧
    ¬ engineC2.capture_min_timestamp_ ≤ engineC2.capture_max_timestamp_ ∧
    (TimeGraph.SetMinMax exEnv0 engineC2 5 6).min_time_us_ = 5 ∧
    (TimeGraph.SetMinMax exEnv0 engineC2 5 6).max_time_us_ = 0 := by
  refine ⟨by decide, by decide, by decide, ?_, ?_⟩ <;>
    norm_num [engineC2, exTG0, exEnv0, TimeGraph.Clear, TimeGraph.SetMinMax,
      TimeGraph.GetCaptureTimeSpanUs, TimeGraph.UpdateCaptureMinMaxTimestamps,
      TimeGraph.GetOrCreateSchedulerTrack, TimeGraph.GetOrCreateThreadTrack,
      TimeGraph.SetIteratorOverlayData, TimeGraph.NeedsUpdate,
      TimeGraph.trackNumTimers, TimeGraph.trackMinTime, mapLookup, mapInsert,
      CallstackData.count, UINT64_MAX, List.foldl, kAllThreadsFakeTid]

/-- Claim C2 (amended): the invariants hold only in the weakened form the
code actually maintains.  (1) `Clear` parks the extent at the sentinel pair
`capture_min = UINT64_MAX, capture_max = 0`, so `capture_min ≤ capture_max`
fails until data is observed.  (2) `SetMinMax` always clamps the window start
at `0` and (3) always clamps the window end at the recomputed capture span;
(4) it guarantees `min_time_us_ ≤ max_time_us_` only when the requested
interval is ordered and its clamped start lies within the capture span. -/
theorem window_invariants_amended :
    (∀ tg : TimeGraph, tg.Clear.capture_min_timestamp_ = UINT64_MAX ∧
      tg.Clear.capture_max_timestamp_ = 0) ∧
    (∀ (env : Env) (tg : TimeGraph) (a b : ℚ),
      0 ≤ (TimeGraph.SetMinMax env tg a b).min_time_us_) ∧
    (∀ (env : Env) (tg : TimeGraph) (a b : ℚ),
      (TimeGraph.SetMinMax env tg a b).max_time_us_ ≤
        (TimeGraph.GetCaptureTimeSpanUs env tg).1) ∧
    (∀ (env : Env) (tg : TimeGraph) (a b : ℚ), a ≤ b →
      max a 0 ≤ (TimeGraph.GetCaptureTimeSpanUs env tg).1 →
      (TimeGraph.SetMinMax env tg a b).min_time_us_ ≤
        (TimeGraph.SetMinMax env tg a b).max_time_us_) := by
  refine ⟨?_, ?_, ?_, ?_⟩
  · intro tg
    constructor
    · simp [TimeGraph.Clear, TimeGraph.NeedsUpdate,
        TimeGraph.SetIteratorOverlayData, cmin_GetOrCreateThreadTrack,
        cmin_GetOrCreateSchedulerTrack]
    · simp [TimeGraph.Clear, TimeGraph.NeedsUpdate,
        TimeGraph.SetIteratorOverlayData, cmax_GetOrCreateThreadTrack,
        cmax_GetOrCreateSchedulerTrack]
  · intro env tg a b
    rcases hsp : TimeGraph.GetCaptureTimeSpanUs env tg with ⟨span, tg1⟩
    simp [TimeGraph.SetMinMax, TimeGraph.NeedsUpdate, hsp]
  · intro env tg a b
    rcases hsp : TimeGraph.GetCaptureTimeSpanUs env tg with ⟨span, tg1⟩
    simp [TimeGraph.SetMinMax, TimeGraph.NeedsUpdate, hsp]
  · intro env tg a b hab hspan
    rcases hsp : TimeGraph.GetCaptureTimeSpanUs env tg with ⟨span, tg1⟩
    rw [hsp] at hspan
    simp only [TimeGraph.SetMinMax, TimeGraph.NeedsUpdate, hsp]
    refine le_min ?_ hspan
    have : (0 : ℚ) ≤ b - a := by linarith
    linarith [le_max_left a (0 : ℚ), le_max_right a (0 : ℚ)]

/-- External data for the C2 witness: two callstack events give the capture
a positive time span. -/
def envC2w : Env := { callstack := { events := [{ time := 1000 }, { time := 2000000 }] } }

/-- Concrete instantiation of the amended C2 theorem, part (4): with a
capture span of `1999 µs`, `SetMinMax 1 2` produces an ordered window. -/
theorem window_invariants_amended_witness :
    (TimeGraph.SetMinMax envC2w exTG0 1 2).min_time_us_ ≤
      (TimeGraph.SetMinMax envC2w exTG0 1 2).max_time_us_ := by
  refine window_invariants_amended.2.2.2 envC2w exTG0 1 2 (by norm_num) ?_
  norm_num [envC2w, exTG0, TimeGraph.GetCaptureTimeSpanUs,
    TimeGraph.UpdateCaptureMinMaxTimestamps, TimeGraph.trackNumTimers,
    CallstackData.count, CallstackData.min_time, CallstackData.max_time,
    TicksToMicroseconds, UINT64_MAX, List.foldl, List.min?, List.max?]

/-- An engine with a zero-width window (so any zoom proposal is degenerate)
and `zoom_value_ = 0`. -/
def engineC6 : TimeGraph := { min_time_us_ := 10, max_time_us_ := 10 }

/-- Claim C6 counterexample: when `ZoomTime` rejects a degenerate result the
visible window is indeed untouched, but the call is not a no-op on the
entire engine state: `zoom_value_` (and likewise `mouse_ratio_`,
`ref_time_us_`) are assigned before the degenerate-width check, so the state
after the call differs from the state before it. -/
theorem zoomTime_noop_counterexample :
    (TimeGraph.ZoomTime exEnv0 engineC6 5 (1/2)).min_time_us_ =
        engineC6.min_time_us_ ∧
    (TimeGraph.ZoomTime exEnv0 engineC6 5 (1/2)).max_time_us_ =
        engineC6.max_time_us_ ∧
    (TimeGraph.ZoomTime exEnv0 engineC6 5 (1/2)).zoom_value_ = 5 ∧
    engineC6.zoom_value_ = 0 ∧
    TimeGraph.ZoomTime exEnv0 engineC6 5 (1/2) ≠ engineC6 := by
  have hz : (TimeGraph.ZoomTime exEnv0 engineC6 5 (1/2)).zoom_value_ = 5 := by
    norm_num [TimeGraph.ZoomTime, TimeGraph.zoomTimeProposedMin,
      TimeGraph.zoomTimeProposedMax, TimeGraph.zoomTimeRef, engineC6]
  refine ⟨?_, ?_, hz, rfl, fun h => by rw [h] at hz; norm_num [engineC6] at hz⟩ <;>
    norm_num [TimeGraph.ZoomTime, TimeGraph.zoomTimeProposedMin,
      TimeGraph.zoomTimeProposedMax, TimeGraph.zoomTimeRef, engineC6]

/-- Claim C6 (amended): when the proposed window would be narrower than one
nanosecond (`0.001 µs`), `ZoomTime` leaves the visible window — and every
other part of the engine state except the bookkeeping members `zoom_value_`,
`mouse_ratio_` and `ref_time_us_`, which are assigned before the check —
unchanged. -/
theorem zoomTime_degenerate_window_amended (env : Env) (tg : TimeGraph)
    (zv mr : ℚ)
    (h : tg.zoomTimeProposedMax zv mr - tg.zoomTimeProposedMin zv mr
      < (1 / 1000 : ℚ)) :
    TimeGraph.ZoomTime env tg zv mr =
      { tg with zoom_value_ := zv, mouse_ratio_ := mr,
                ref_time_us_ := tg.zoomTimeRef mr } := by
  simp [TimeGraph.ZoomTime, h]
  intro hc
  linarith

/-- Concrete instantiation of the amended C6 theorem on the zero-width
window. -/
theorem zoomTime_degenerate_window_amended_witness :
    TimeGraph.ZoomTime exEnv0 engineC6 5 (1/2) =
      { engineC6 with zoom_value_ := 5, mouse_ratio_ := 1/2,
                      ref_time_us_ := engineC6.zoomTimeRef (1/2) } :=
  zoomTime_degenerate_window_amended exEnv0 engineC6 5 (1/2) (by
    norm_num [TimeGraph.zoomTimeProposedMin, TimeGraph.zoomTimeProposedMax,
      TimeGraph.zoomTimeRef, engineC6])

/-- Claim C8: `SelectEvents` is symmetric in its world-space endpoints — the
swap normalization at its entry makes the call with `(world_start,
world_end)` and the call with the swapped pair return the identical selected
event list and the identical engine state, including the per-thread selection
map with its all-threads bucket. -/
theorem selectEvents_swap_symmetric (env : Env) (tg : TimeGraph) (a b : ℚ)
    (tid : Int) :
    TimeGraph.SelectEvents env tg a b tid =
      TimeGraph.SelectEvents env tg b a tid := by
  unfold TimeGraph.SelectEvents
  rcases lt_trichotomy a b with h | h | h
  · rw [if_neg (by simpa using le_of_lt h), if_pos (by simpa using h)]
  · rw [h]
  · rw [if_pos (by simpa using h), if_neg (by simpa using le_of_lt h)]

theorem mapLookup_mapInsert {K V : Type} [LinearOrder K]
    (m : List (K × V)) (k k' : K) (v : V) :
    mapLookup (mapInsert k v m) k' =
      if k' = k then some v else mapLookup m k' := by
  induction m with
  | nil => simp [mapInsert, mapLookup]
  | cons p rest ih =>
    obtain ⟨k0, v0⟩ := p
    rcases lt_trichotomy k k0 with h1 | h1 | h1
    · simp only [mapInsert, if_pos h1, mapLookup]
    · subst h1
      simp only [mapInsert, lt_irrefl, if_neg (lt_irrefl k), if_pos rfl,
        mapLookup]
      by_cases hk : k' = k <;> simp [hk]
    · have hne : ¬ k < k0 := not_lt.2 (le_of_lt h1)
      have hne2 : ¬ k = k0 := ne_of_gt h1
      simp only [mapInsert, if_neg hne, if_neg hne2, mapLookup, ih]
      by_cases hk : k' = k0
      · subst hk
        have : ¬ k' = k := ne_of_lt h1
        simp [this]
      · simp [hk]

theorem fields_GetOrCreateThreadTrack (tg : TimeGraph) (tid : Int) :
    (tg.GetOrCreateThreadTrack tid).scheduler_track_ = tg.scheduler_track_ ∧
    (tg.GetOrCreateThreadTrack tid).cores_seen_ = tg.cores_seen_ ∧
    (tg.GetOrCreateThreadTrack tid).thread_count_map_ = tg.thread_count_map_ := by
  unfold TimeGraph.GetOrCreateThreadTrack; split <;> exact ⟨rfl, rfl, rfl⟩

theorem fields_GetOrCreateGraphTrack (tg : TimeGraph) (n : String) :
    (tg.GetOrCreateGraphTrack n).scheduler_track_ = tg.scheduler_track_ ∧
    (tg.GetOrCreateGraphTrack n).cores_seen_ = tg.cores_seen_ ∧
    (tg.GetOrCreateGraphTrack n).thread_count_map_ = tg.thread_count_map_ ∧
    (tg.GetOrCreateGraphTrack n).thread_tracks_ = tg.thread_tracks_ := by
  unfold TimeGraph.GetOrCreateGraphTrack; split <;> exact ⟨rfl, rfl, rfl, rfl⟩

theorem fields_graphTrackAddValue (tg : TimeGraph) (n : String) (v tm : Nat) :
    (tg.graphTrackAddValue n v tm).scheduler_track_ = tg.scheduler_track_ ∧
    (tg.graphTrackAddValue n v tm).cores_seen_ = tg.cores_seen_ ∧
    (tg.graphTrackAddValue n v tm).thread_count_map_ = tg.thread_count_map_ ∧
    (tg.graphTrackAddValue n v tm).thread_tracks_ = tg.thread_tracks_ := by
  unfold TimeGraph.graphTrackAddValue; split <;> exact ⟨rfl, rfl, rfl, rfl⟩

theorem fields_ProcessValueTrackingTimer (tg : TimeGraph) (t : TimerInfo) :
    (tg.ProcessValueTrackingTimer t).scheduler_track_ = tg.scheduler_track_ ∧
    (tg.ProcessValueTrackingTimer t).cores_seen_ = tg.cores_seen_ ∧
    (tg.ProcessValueTrackingTimer t).thread_count_map_ = tg.thread_count_map_ ∧
    (tg.ProcessValueTrackingTimer t).thread_tracks_ = tg.thread_tracks_ := by
  simp only [TimeGraph.ProcessValueTrackingTimer]
  split
  · exact ⟨rfl, rfl, rfl, rfl⟩
  · split <;>
      simp [fields_graphTrackAddValue, fields_GetOrCreateGraphTrack,
        (fields_graphTrackAddValue _ _ _ _).1, (fields_graphTrackAddValue _ _ _ _).2.1,
        (fields_graphTrackAddValue _ _ _ _).2.2.1, (fields_graphTrackAddValue _ _ _ _).2.2.2,
        (fields_GetOrCreateGraphTrack _ _).1, (fields_GetOrCreateGraphTrack _ _).2.1,
        (fields_GetOrCreateGraphTrack _ _).2.2.1, (fields_GetOrCreateGraphTrack _ _).2.2.2]

theorem fields_processTimerHook (tg : TimeGraph) (t : TimerInfo)
    (f : Option FunctionInfo) :
    (tg.processTimerHook t f).scheduler_track_ = tg.scheduler_track_ ∧
    (tg.processTimerHook t f).cores_seen_ = tg.cores_seen_ ∧
    (tg.processTimerHook t f).thread_count_map_ = tg.thread_count_map_ ∧
    (tg.processTimerHook t f).thread_tracks_ = tg.thread_tracks_ := by
  unfold TimeGraph.processTimerHook
  cases f with
  | none => exact ⟨rfl, rfl, rfl, rfl⟩
  | some fi =>
    simp only []
    split
    · unfold TimeGraph.ProcessOrbitFunctionTimer
      split <;> first
        | exact ⟨rfl, rfl, rfl, rfl⟩
        | exact fields_ProcessValueTrackingTimer _ _
    · exact ⟨rfl, rfl, rfl, rfl⟩

theorem fields_processTimerWiden (tg : TimeGraph) (t : TimerInfo) :
    (tg.processTimerWiden t).scheduler_track_ = tg.scheduler_track_ ∧
    (tg.processTimerWiden t).cores_seen_ = tg.cores_seen_ ∧
    (tg.processTimerWiden t).thread_count_map_ = tg.thread_count_map_ ∧
    (tg.processTimerWiden t).thread_tracks_ = tg.thread_tracks_ := by
  unfold TimeGraph.processTimerWiden; split <;> exact ⟨rfl, rfl, rfl, rfl⟩

theorem threadTrackTimers_GetOrCreateThreadTrack (tg : TimeGraph)
    (tid0 tid : Int) :
    (tg.GetOrCreateThreadTrack tid0).threadTrackTimers tid =
      tg.threadTrackTimers tid := by
  unfold TimeGraph.GetOrCreateThreadTrack TimeGraph.threadTrackTimers
  split
  · rfl
  · rename_i hnone
    simp only [mapLookup_mapInsert]
    by_cases h : tid = tid0
    · subst h
      simp [hnone]
    · simp [h]

theorem route_coreActivity (env : Env) (s2 : TimeGraph) (t : TimerInfo)
    (h : t.type = TimerType.kCoreActivity) :
    TimeGraph.processTimerRoute env s2 t =
      (let tgC := (s2.GetOrCreateThreadTrack t.thread_id).schedulerTrackOnTimer t
       { tgC with cores_seen_ := setInsert t.processor tgC.cores_seen_ }) := by
  simp [TimeGraph.processTimerRoute, h]

theorem lookup_GetOrCreateThreadTrack_isSome (tg : TimeGraph) (tid : Int) :
    (mapLookup (tg.GetOrCreateThreadTrack tid).thread_tracks_ tid).isSome = true := by
  unfold TimeGraph.GetOrCreateThreadTrack
  split
  · rename_i tr heq
    simp [heq]
  · simp [mapLookup_mapInsert]

/-- Claim C9: a CoreActivity record is appended only to the scheduler track
(no thread track's record list changes), its core id is inserted into the
cores-seen set, `thread_count_map_` is untouched — and yet, because the
thread-track get-or-create runs before the CoreActivity branch, a thread
track keyed by the record's `thread_id` exists afterwards, and is empty when
it did not exist before. -/
theorem processTimer_coreActivity_effects (env : Env) (tg : TimeGraph)
    (t : TimerInfo) (f : Option FunctionInfo)
    (h : t.type = TimerType.kCoreActivity) :
    (TimeGraph.ProcessTimer env tg t f).scheduler_track_ =
      tg.scheduler_track_.map (fun s => { s with timers := s.timers ++ [t] }) ∧
    (TimeGraph.ProcessTimer env tg t f).cores_seen_ =
      setInsert t.processor tg.cores_seen_ ∧
    (TimeGraph.ProcessTimer env tg t f).thread_count_map_ =
      tg.thread_count_map_ ∧
    (∀ tid, (TimeGraph.ProcessTimer env tg t f).threadTrackTimers tid =
      tg.threadTrackTimers tid) ∧
    (mapLookup (TimeGraph.ProcessTimer env tg t f).thread_tracks_
      t.thread_id).isSome = true ∧
    (mapLookup tg.thread_tracks_ t.thread_id = none →
      (TimeGraph.ProcessTimer env tg t f).threadTrackTimers t.thread_id = []) := by
  obtain ⟨hw1, hw2, hw3, hw4⟩ := fields_processTimerWiden tg t
  obtain ⟨hh1, hh2, hh3, hh4⟩ :=
    fields_processTimerHook (tg.processTimerWiden t) t f
  unfold TimeGraph.ProcessTimer
  rw [route_coreActivity env _ t h]
  set s2 := (tg.processTimerWiden t).processTimerHook t f with hs2
  obtain ⟨hg1, hg2, hg3⟩ := fields_GetOrCreateThreadTrack s2 t.thread_id
  have htt : ∀ tid, (s2.GetOrCreateThreadTrack t.thread_id).threadTrackTimers tid =
      tg.threadTrackTimers tid := by
    intro tid
    rw [threadTrackTimers_GetOrCreateThreadTrack]
    simp [TimeGraph.threadTrackTimers, hh4, hw4]
  have hconj4 : ∀ tid,
      (TimeGraph.NeedsUpdate
        (let tgC := (s2.GetOrCreateThreadTrack t.thread_id).schedulerTrackOnTimer t
         { tgC with cores_seen_ := setInsert t.processor tgC.cores_seen_ })).threadTrackTimers tid =
      tg.threadTrackTimers tid := by
    intro tid
    simpa [TimeGraph.NeedsUpdate, TimeGraph.schedulerTrackOnTimer,
      TimeGraph.threadTrackTimers] using htt tid
  refine ⟨?_, ?_, ?_, hconj4, ?_, ?_⟩
  · simp [TimeGraph.NeedsUpdate, TimeGraph.schedulerTrackOnTimer, hg1, hh1, hw1]
  · simp [TimeGraph.NeedsUpdate, TimeGraph.schedulerTrackOnTimer, hg2, hh2, hw2]
  · simp [TimeGraph.NeedsUpdate, TimeGraph.schedulerTrackOnTimer, hg3, hh3, hw3]
  · simpa [TimeGraph.NeedsUpdate, TimeGraph.schedulerTrackOnTimer] using
      lookup_GetOrCreateThreadTrack_isSome s2 t.thread_id
  · intro hnone
    rw [hconj4 t.thread_id]
    simp [TimeGraph.threadTrackTimers, hnone]

/-- A CoreActivity record for the C9 witness (core 2, scheduled thread 3). -/
def coreC9 : TimerInfo :=
  { start := 50, end_ := 90, thread_id := 3, type := TimerType.kCoreActivity,
    processor := 2 }

/-- Concrete instantiation of the C9 theorem: delivering `coreC9` to the
default engine records core `2` and leaves thread track `3` empty. -/
theorem processTimer_coreActivity_effects_witness :
    (TimeGraph.ProcessTimer exEnv0 exTG0 coreC9 none).cores_seen_ = [2] ∧
    (TimeGraph.ProcessTimer exEnv0 exTG0 coreC9 none).threadTrackTimers 3 = [] := by
  have h9 := processTimer_coreActivity_effects exEnv0 exTG0 coreC9 none rfl
  exact ⟨by simpa [setInsert, exTG0, coreC9] using h9.2.1,
         by simpa [coreC9] using h9.2.2.2.2.2 rfl⟩

theorem moveIntoView_noop (env : Env) (tg : TimeGraph) (vt : VisibilityType)
    (mn mx : Nat) (d : ℚ) (h : tg.IsVisible vt mn mx = true) :
    TimeGraph.HorizontallyMoveIntoView env tg vt mn mx d = tg := by
  unfold TimeGraph.HorizontallyMoveIntoView
  simp [h]

/-- The single track of the C7 counterexample engine: one span covering
ticks 1000 to 100,000,000. -/
def trackC7 : ThreadTrack :=
  { tid := 1, timers := [{ start := 1000, end_ := 100000000 }] }

/-- The C7 counterexample engine: capture extent `[1000, 10^8]` ticks, window
`[10000, 10100] µs`. -/
def engineC7 : TimeGraph :=
  { capture_min_timestamp_ := 1000, capture_max_timestamp_ := 100000000,
    min_time_us_ := 10000, max_time_us_ := 10100,
    tracks_ := [TrackRef.thread 1], thread_tracks_ := [(1, trackC7)] }

/-- The engine after the first `HorizontallyMoveIntoView` call of the C7
counterexample. -/
def engineC7after1 : TimeGraph :=
  { engineC7 with min_time_us_ := 50005, max_time_us_ := 50105,
                  needs_update_primitives_ := true, needs_redraw_ := true }

/-- Claim C7 counterexample: `HorizontallyMoveIntoView` with the
fully-visible criterion is not idempotent.  Target ticks
`[50,001,000, 50,011,000]` (10 µs wide) with bias `1`: the first call centers
to `[50005, 50105] µs`, which still leaves the target start left of the
window, so the second identical call mirrors the bias and moves the window to
`[49905, 50005] µs` — a different window. -/
theorem moveIntoView_idempotence_counterexample :
    TimeGraph.HorizontallyMoveIntoView exEnv0 engineC7
        VisibilityType.kFullyVisible 50001000 50011000 1 = engineC7after1 ∧
    (TimeGraph.HorizontallyMoveIntoView exEnv0 engineC7after1
        VisibilityType.kFullyVisible 50001000 50011000 1).min_time_us_ = 49905 ∧
    (TimeGraph.HorizontallyMoveIntoView exEnv0 engineC7after1
        VisibilityType.kFullyVisible 50001000 50011000 1).max_time_us_ = 50005 ∧
    engineC7after1.min_time_us_ = 50005 ∧
    engineC7after1.max_time_us_ = 50105 ∧
    (49905 : ℚ) ≠ 50005 := by
  refine ⟨?_, ?_, ?_, by norm_num [engineC7after1, engineC7],
    by norm_num [engineC7after1, engineC7], by norm_num⟩ <;>
  norm_num [TimeGraph.HorizontallyMoveIntoView, TimeGraph.IsVisible,
    TimeGraph.IsFullyVisible, TimeGraph.Zoom, TimeGraph.SetMinMax,
    TimeGraph.GetCaptureTimeSpanUs, TimeGraph.UpdateCaptureMinMaxTimestamps,
    TimeGraph.trackNumTimers, TimeGraph.trackMinTime, TimeGraph.NeedsUpdate,
    TicksToMicroseconds, mapLookup, CallstackData.count, UINT64_MAX,
    List.foldl, List.min?, engineC7, engineC7after1, trackC7, exEnv0]

/-- Claim C7 (amended): `HorizontallyMoveIntoView(kFullyVisible, ...)` is a
no-op on an already-fully-visible target, hence calling it twice gives the
same window as calling it once whenever the first call leaves the target
fully visible; when the first call leaves the target not fully visible (as
with bias `1`, which parks the window to the right of the target start), the
second call mirrors the bias and can move the window again, as the
counterexample shows. -/
theorem moveIntoView_idempotent_when_visible (env : Env) (tg : TimeGraph)
    (mn mx : Nat) (d : ℚ)
    (h : (TimeGraph.HorizontallyMoveIntoView env tg
      VisibilityType.kFullyVisible mn mx d).IsFullyVisible mn mx = true) :
    TimeGraph.HorizontallyMoveIntoView env
        (TimeGraph.HorizontallyMoveIntoView env tg
          VisibilityType.kFullyVisible mn mx d)
        VisibilityType.kFullyVisible mn mx d =
      TimeGraph.HorizontallyMoveIntoView env tg
        VisibilityType.kFullyVisible mn mx d :=
  moveIntoView_noop env _ _ mn mx d (by simpa [TimeGraph.IsVisible] using h)

/-- The C7 witness engine: window `[1, 1000] µs` with the target
`[5000, 6000]` ticks (`[5, 6] µs`) strictly inside it. -/
def engineC7w : TimeGraph :=
  { capture_min_timestamp_ := 0, capture_max_timestamp_ := 2000000,
    min_time_us_ := 1, max_time_us_ := 1000 }

/-- Concrete instantiation of the amended C7 theorem: on a target already
fully visible the first call is a no-op and the second call changes
nothing. -/
theorem moveIntoView_idempotent_when_visible_witness :
    TimeGraph.HorizontallyMoveIntoView exEnv0
        (TimeGraph.HorizontallyMoveIntoView exEnv0 engineC7w
          VisibilityType.kFullyVisible 5000 6000 (3/10))
        VisibilityType.kFullyVisible 5000 6000 (3/10) =
      TimeGraph.HorizontallyMoveIntoView exEnv0 engineC7w
        VisibilityType.kFullyVisible 5000 6000 (3/10) := by
  have hvis : engineC7w.IsFullyVisible 5000 6000 = true := by
    norm_num [TimeGraph.IsFullyVisible, TicksToMicroseconds, engineC7w]
  have hnoop : TimeGraph.HorizontallyMoveIntoView exEnv0 engineC7w
      VisibilityType.kFullyVisible 5000 6000 (3/10) = engineC7w :=
    moveIntoView_noop exEnv0 engineC7w VisibilityType.kFullyVisible 5000 6000
      (3/10) (by simpa [TimeGraph.IsVisible] using hvis)
  exact moveIntoView_idempotent_when_visible exEnv0 engineC7w 5000 6000 (3/10)
    (by rw [hnoop]; exact hvis)

/-- The non-empty thread track of the C4 scenario engine. -/
def trackC4 : ThreadTrack :=
  { tid := 7, timers := [{ start := 10, end_ := 20, thread_id := 7 }] }

/-- The C4 scenario engine: one empty GPU track (timeline hash 42), one
non-empty thread track (id 7), an empty scheduler and an empty process
track. -/
def engineC4 : TimeGraph :=
  { scheduler_track_ := some {},
    thread_tracks_ := [(kAllThreadsFakeTid, { tid := kAllThreadsFakeTid }), (7, trackC4)],
    gpu_tracks_ := [(42, { timeline_hash := 42 })],
    thread_count_map_ := [(7, 1)],
    tracks_ := [TrackRef.scheduler, TrackRef.thread kAllThreadsFakeTid,
                TrackRef.thread 7, TrackRef.gpu 42] }

/-- Claim C4 counterexample: on an engine with one empty GPU track and one
non-empty thread track, `SortTracks` produces `[gpu 42, thread 7]`, not
`[thread 7]`: the loop at TimeGraph.cpp:922-924 appends every GPU track
without an emptiness check (and likewise graph and async tracks), so "every
empty track filtered out" fails for the GPU group. -/
theorem sortTracks_scenario_counterexample :
    ((mapLookup engineC4.gpu_tracks_ 42).map (fun t => t.timers)).getD [] = [] ∧
    engineC4.threadTrackTimers 7 ≠ [] ∧
    (TimeGraph.SortTracks exEnv0 engineC4).sorted_tracks_ =
      [TrackRef.gpu 42, TrackRef.thread 7] ∧
    (TimeGraph.SortTracks exEnv0 engineC4).sorted_tracks_ ≠
      [TrackRef.thread 7] := by decide

/-- External data for the full C4 ordering example: one callstack event on
thread 4 (which owns no timer records, so its track stays empty and is
filtered from the thread group). -/
def envC4big : Env := { callstack := { events := [{ time := 5, thread_id := 4 }] } }

/-- The full C4 ordering example: non-empty scheduler, one GPU, one graph and
one async track, a non-empty process track, and thread tracks 2 and 3 with
instrumented counts 2 and 5. -/
def engineC4big : TimeGraph :=
  { scheduler_track_ :=
      some { timers := [{ start := 1, end_ := 2, type := TimerType.kCoreActivity }] },
    thread_tracks_ := [(kAllThreadsFakeTid,
        { tid := kAllThreadsFakeTid, timers := [{ start := 1, end_ := 2 }] }),
      (2, { tid := 2, timers := [{ start := 1, end_ := 2 }, { start := 3, end_ := 4 }] }),
      (3, { tid := 3, timers := [{ start := 1, end_ := 9 }] })],
    gpu_tracks_ := [(5, { timeline_hash := 5, timers := [{ start := 1, end_ := 2, type := TimerType.kGpuActivity }] })],
    graph_tracks_ := [("g", { name := "g", values := [(1, 10)] })],
    async_tracks_ := [("a", { name := "a", timers := [{ start := 1, end_ := 2 }] })],
    thread_count_map_ := [(2, 2), (3, 5)],
    tracks_ := [TrackRef.scheduler, TrackRef.thread kAllThreadsFakeTid,
                TrackRef.thread 2, TrackRef.thread 3, TrackRef.gpu 5,
                TrackRef.graph "g", TrackRef.async "a"] }

/-- Claim C4 (amended): `SortTracks` rebuilds the draw list as scheduler
track first (when non-empty), then all GPU tracks, all graph tracks and all
async tracks — these three groups unconditionally, with no emptiness filter —
then the synthetic process track (when non-empty), then per-thread tracks
(instrumented threads by descending `thread_count_map_` count, then sampled
threads by descending callstack-event count), each thread track skipped when
empty; so the scenario engine with an empty GPU track and a non-empty thread
track yields `[gpu, thread]` rather than only the thread track. -/
theorem sortTracks_order_amended :
    (TimeGraph.SortTracks exEnv0 engineC4).sorted_tracks_ =
      [TrackRef.gpu 42, TrackRef.thread 7] ∧
    (TimeGraph.SortTracks envC4big engineC4big).sorted_tracks_ =
      [TrackRef.scheduler, TrackRef.gpu 5, TrackRef.graph "g",
       TrackRef.async "a", TrackRef.thread kAllThreadsFakeTid,
       TrackRef.thread 3, TrackRef.thread 2] := by decide

theorem sortBoxes_insertOne_length (b : Nat × TimerInfo)
    (l : List (Nat × TimerInfo)) :
    (sortBoxesByStart.insertOne b l).length = l.length + 1 := by
  induction l with
  | nil => rfl
  | cons b' rest ih =>
    simp only [sortBoxesByStart.insertOne]
    split <;> simp [ih]

theorem sortBoxes_length (l : List (Nat × TimerInfo)) :
    (sortBoxesByStart l).length = l.length := by
  induction l with
  | nil => rfl
  | cons b rest ih =>
    simp only [sortBoxesByStart, List.foldr_cons] at ih ⊢
    rw [sortBoxes_insertOne_length, ih]
    rfl

/-- Claim C10: in non-picking mode with exactly one marked record,
`DrawOverlay` emits only that record's vertical marker line — the
adjacent-pair loop (whose `text_y` computation divides by `size() - 1`)
contributes nothing, so a single marker never reaches that division — and
with fewer than three markers no "Total" annotation is emitted. -/
theorem drawOverlay_single_marker_safe :
    (∀ (tg : TimeGraph) (canvas : Canvas) (pid : Nat) (tb : TimerInfo),
      tg.iterator_text_boxes_ = [(pid, tb)] →
      ∃ x, tg.DrawOverlay canvas PickingMode.kNone =
        [OverlayPrimitive.verticalLine x (-canvas.world_height)
          (GetThreadColor tb.thread_id)]) ∧
    (∀ (tg : TimeGraph) (canvas : Canvas) (pm : PickingMode),
      tg.iterator_text_boxes_.length < 3 →
      ∀ p ∈ tg.DrawOverlay canvas pm, p.isTotal = false) := by
  constructor
  · intro tg canvas pid tb h
    refine ⟨tg.overlayWorldX canvas tb, ?_⟩
    simp [TimeGraph.DrawOverlay, h, sortBoxesByStart, sortBoxesByStart.insertOne]
  · intro tg canvas pm hlen p hp
    unfold TimeGraph.DrawOverlay at hp
    split at hp
    · simp at hp
    · simp only [] at hp
      have htot : ¬ (sortBoxesByStart tg.iterator_text_boxes_).length > 2 := by
        rw [sortBoxes_length]
        omega
      rw [if_neg htot] at hp
      simp only [List.append_nil] at hp
      rcases List.mem_append.1 hp with hmem | hmem
      · obtain ⟨b, _, rfl⟩ := List.mem_map.1 hmem
        rfl
      · obtain ⟨q, _, rfl⟩ := List.mem_map.1 hmem
        rfl

/-- An engine with exactly one marked record for the C10 witness. -/
def engineC10 : TimeGraph :=
  { iterator_text_boxes_ := [(9, { start := 500, thread_id := 4 })],
    time_window_us_ := 100 }

/-- The viewport of the C10 witness. -/
def canvasC10 : Canvas :=
  { world_top_left_x := 0, world_width := 800, world_top_left_y := 0,
    world_height := 600, bottom_margin := 10 }

/-- Concrete instantiation of the C10 theorem: one marker yields exactly one
vertical line. -/
theorem drawOverlay_single_marker_safe_witness :
    ∃ x, TimeGraph.DrawOverlay engineC10 canvasC10 PickingMode.kNone =
      [OverlayPrimitive.verticalLine x (-canvasC10.world_height)
        (GetThreadColor 4)] :=
  drawOverlay_single_marker_safe.1 engineC10 canvasC10 9
    { start := 500, thread_id := 4 } rfl
